import Mathlib

/-!
Verification development for the model-evaluation stage of the
Capstone-Project repository (`src/model/model_evaluation.py`).

The script is embedded shallowly:

* machine floats become exact rationals (ℚ);
* the sklearn metric functions (`accuracy_score`, `precision_score`,
  `recall_score`, `roc_auc_score`) are translated for the binary-label
  case actually used by the script, with their failure modes
  (inconsistent lengths, non-binary targets, single-class AUC) surfaced
  as `Except` errors, and sklearn's `zero_division=0` default for
  precision/recall matching ℚ's `x / 0 = 0` convention;
* a fitted classifier is a record of per-row `predict` /
  `predict_proba` functions plus an optional `get_params` parameter
  list (`none` models a model object without a `get_params` attribute);
* the side-effecting pipeline (`main`, module-level startup) becomes a
  function from an environment — the outcomes of the file and tracking
  operations — to a trace of observable events plus an outcome,
  following the source line by line.
-/

/-- Python exceptions raised by the script or the libraries it calls,
abstracted to the cases the script distinguishes. -/
inductive PyError where
  /-- Python `FileNotFoundError` from `open` on a missing path. -/
  | fileNotFound (path : String)
  /-- The `pandas.errors.ParserError` from `pd.read_csv`. -/
  | parseError
  /-- Python `OSError`/`IOError` from a failed local write. -/
  | ioError (what : String)
  /-- generic `ValueError` with its message. -/
  | valueError (msg : String)
  /-- the `ValueError` sklearn raises when only one class is present in
  `y_true` so ROC AUC is undefined. -/
  | aucUndefined
  /-- the `ValueError` sklearn raises for non-binary classification
  targets under the default `average='binary'` / binary AUC. -/
  | nonBinaryLabels
  /-- the `ValueError` sklearn raises for inconsistent sample counts. -/
  | lengthMismatch
  /-- any `mlflow`/network failure from a tracking call. -/
  | trackingError
deriving DecidableEq, Repr

deriving instance DecidableEq for Except

/-- The message text `str(e)` used when the error is logged/printed. -/
def PyError.msg : PyError → String
  | .fileNotFound p => "[Errno 2] No such file or directory: " ++ p
  | .parseError => "Error tokenizing data"
  | .ioError w => "I/O error: " ++ w
  | .valueError m => m
  | .aucUndefined =>
      "Only one class present in y_true. ROC AUC score is not defined in that case."
  | .nonBinaryLabels => "Target is not binary"
  | .lengthMismatch => "Found input variables with inconsistent numbers of samples"
  | .trackingError => "mlflow tracking request failed"

/-- JSON values, as produced by `json.dump` and read back by `json.load`
(numbers kept exact; the script only writes numbers, strings and flat
objects). Object fields keep insertion order, as Python dicts do. -/
inductive Json where
  | num (q : ℚ)
  | str (s : String)
  | obj (fields : List (String × Json))

/-- Field lookup in a JSON object (first binding wins, as in a Python
dict, whose keys are unique). -/
def Json.lookupField : Json → String → Option Json
  | .obj fields, k => fields.lookup k
  | _, _ => none

/-- Extract a JSON number. -/
def Json.asNum : Json → Option ℚ
  | .num q => some q
  | _ => none

/-- Extract a JSON string. -/
def Json.asStr : Json → Option String
  | .str s => some s
  | _ => none

/-- The metrics dictionary built by `evaluate_model`
(`model_evaluation.py` lines 84–89); insertion order is
accuracy, precision, recall, auc. -/
structure MetricsDict where
  accuracy : ℚ
  precision : ℚ
  «recall» : ℚ
  auc : ℚ
deriving DecidableEq, Repr

/-- Whether every label in the list is 0 or 1 — the binary target
check sklearn's classification metrics perform. -/
def binaryLabels (y : List ℚ) : Bool :=
  y.all fun l => decide (l = 0 ∨ l = 1)

/-- Embeds `sklearn.metrics.accuracy_score` on binary (or any equal-typed)
targets: the fraction of positions where the labels agree.  Raises on
inconsistent lengths and on empty input. -/
def accuracy_score (y_true y_pred : List ℚ) : Except PyError ℚ :=
  if y_true.length ≠ y_pred.length then .error .lengthMismatch
  else if y_true.length = 0 then
    .error (.valueError "Found array with 0 sample(s)")
  else
    .ok ((((y_true.zip y_pred).countP fun p => decide (p.1 = p.2) : ℕ) : ℚ) /
      (y_true.length : ℚ))

/-- Embeds `sklearn.metrics.precision_score` with the default `pos_label=1`,
`average='binary'`, `zero_division='warn'` (which yields 0): true
positives over predicted positives.  Raises on inconsistent lengths and
on non-binary targets. -/
def precision_score (y_true y_pred : List ℚ) : Except PyError ℚ :=
  if y_true.length ≠ y_pred.length then .error .lengthMismatch
  else if !(binaryLabels y_true && binaryLabels y_pred) then .error .nonBinaryLabels
  else
    let pairs := y_true.zip y_pred
    let tp : ℕ := pairs.countP fun p => decide (p.1 = 1 ∧ p.2 = 1)
    let pp : ℕ := pairs.countP fun p => decide (p.2 = 1)
    .ok ((tp : ℚ) / (pp : ℚ))

/-- Embeds `sklearn.metrics.recall_score` with the default `pos_label=1`,
`average='binary'`, `zero_division='warn'` (which yields 0): true
positives over actual positives. -/
def recall_score (y_true y_pred : List ℚ) : Except PyError ℚ :=
  if y_true.length ≠ y_pred.length then .error .lengthMismatch
  else if !(binaryLabels y_true && binaryLabels y_pred) then .error .nonBinaryLabels
  else
    let pairs := y_true.zip y_pred
    let tp : ℕ := pairs.countP fun p => decide (p.1 = 1 ∧ p.2 = 1)
    let ap : ℕ := pairs.countP fun p => decide (p.1 = 1)
    .ok ((tp : ℚ) / (ap : ℚ))

/-- Embeds `sklearn.metrics.roc_auc_score` on binary labels: the
Mann–Whitney/rank form of the area under the ROC curve — the
probability that a uniformly random positive example receives a higher
score than a uniformly random negative one, ties counting one half.
This equals the trapezoidal ROC-curve area sklearn computes.  Raises on
inconsistent lengths, non-binary labels, and when only one class is
present. -/
def roc_auc_score (y_true y_score : List ℚ) : Except PyError ℚ :=
  if y_true.length ≠ y_score.length then .error .lengthMismatch
  else if !binaryLabels y_true then .error .nonBinaryLabels
  else
    let pairs := y_true.zip y_score
    let pos := (pairs.filter fun p => decide (p.1 = 1)).map Prod.snd
    let neg := (pairs.filter fun p => decide (p.1 = 0)).map Prod.snd
    if pos.length = 0 ∨ neg.length = 0 then .error .aucUndefined
    else
      let wins : ℚ :=
        (pos.map fun s =>
          (neg.map fun t => if t < s then (1 : ℚ) else if s = t then 1/2 else 0).sum).sum
      .ok (wins / ((pos.length : ℚ) * (neg.length : ℚ)))

/-- A fitted binary classifier as the script uses one: a class
prediction and a two-column probability row per input row, plus the
optional introspectable parameter set (`none` ⟺ the object has no
`get_params` attribute, so `hasattr(clf, 'get_params')` is false). -/
structure Classifier where
  predict : List ℚ → Fin 2
  predict_proba : List ℚ → ℚ × ℚ
  get_params : Option (List (String × String))

/-- Embeds `evaluate_model` (`model_evaluation.py` lines 79–94): predict, take
the positive-class probability column (`predict_proba(X)[:, 1]`), and
build the metrics dict.  Python evaluates the dict literal's values in
key order (accuracy, precision, recall, auc); the first failing metric
aborts the whole call, which logs and re-raises, returning nothing. -/
def evaluate_model (clf : Classifier) (X_test : List (List ℚ)) (y_test : List ℚ) :
    Except PyError MetricsDict :=
  let y_pred := X_test.map fun r => ((clf.predict r).val : ℚ)
  let y_pred_proba := X_test.map fun r => (clf.predict_proba r).2
  match accuracy_score y_test y_pred with
  | .error e => .error e
  | .ok acc =>
    match precision_score y_test y_pred with
    | .error e => .error e
    | .ok prec =>
      match recall_score y_test y_pred with
      | .error e => .error e
      | .ok rcl =>
        match roc_auc_score y_test y_pred_proba with
        | .error e => .error e
        | .ok auc => .ok ⟨acc, prec, rcl, auc⟩

/-- The JSON object `json.dump` writes for the metrics dict
(`save_metrics`, lines 96–103), in dict insertion order. -/
def metrics_to_json (m : MetricsDict) : Json :=
  .obj [("accuracy", .num m.accuracy), ("precision", .num m.precision),
        ("recall", .num m.recall), ("auc", .num m.auc)]

/-- The JSON object `json.dump` writes for the run metadata
(`save_model_info`, lines 105–112). -/
def model_info_json (run_id model_path : String) : Json :=
  .obj [("run_id", .str run_id), ("model_path", .str model_path)]

/-- Reading the metrics file back (`json.load` followed by extracting
the four keys). -/
def read_metrics (j : Json) : Option MetricsDict := do
  let a ← (j.lookupField "accuracy").bind Json.asNum
  let p ← (j.lookupField "precision").bind Json.asNum
  let r ← (j.lookupField "recall").bind Json.asNum
  let u ← (j.lookupField "auc").bind Json.asNum
  some ⟨a, p, r, u⟩

example : read_metrics (metrics_to_json ⟨91/100, 87/100, 85/100, 93/100⟩) =
    some ⟨91/100, 87/100, 85/100, 93/100⟩ := rfl

/-!
## Trace model of the side-effecting pipeline

Each observable action of the script (local file I/O, network calls,
tracking API calls, logging, console output) becomes an `Event`.  The
environment `Env` fixes the outcome of each fallible external
operation; running the embedded `main` against an `Env` yields the
trace of events that occurred and whether `main` returned normally or
propagated an exception.
-/

/-- One observable action of the script. -/
inductive Event where
  /-- a successful read of a local file. -/
  | fileRead (path : String)
  /-- a (re)write of a local file with the given JSON content. -/
  | fileWrite (path : String) (content : Json)
  /-- deletion of a local file.  The script never deletes anything;
  the constructor exists so "no rollback" is expressible. -/
  | fileDelete (path : String)
  /-- a network call outside the tracking API (DagsHub auth/init). -/
  | netCall (what : String)
  /-- Call to `mlflow.set_tracking_uri`. -/
  | setTrackingUri (uri : String)
  /-- Call to `mlflow.set_experiment`. -/
  | setExperiment (name : String)
  /-- the tracking run opened by `mlflow.start_run()`. -/
  | startRun (run_id : String)
  /-- the tracking run closing when the `with` block exits. -/
  | endRun
  /-- inference running inside `evaluate_model`. -/
  | evaluateCall
  /-- Call to `mlflow.log_metric`. -/
  | logMetric (name : String) (value : ℚ)
  /-- Call to `mlflow.log_param`. -/
  | logParam (name : String) (value : String)
  /-- Call to `mlflow.sklearn.log_model(clf, path)`. -/
  | logModelArtifact (artifact_path : String)
  /-- Call to `mlflow.log_artifact(local_path)`. -/
  | logArtifactFile (local_path : String)
  /-- a `logging.info` diagnostic. -/
  | logInfo (msg : String)
  /-- a `logging.error` diagnostic. -/
  | logError (msg : String)
  /-- console output via `print`. -/
  | consolePrint (msg : String)

/-- Fixed artifact path of the trained model (line 122). -/
def modelPath : String := "./models/model.pkl"

/-- Fixed path of the test dataset (line 123). -/
def dataPath : String := "./data/processed/test_bow.csv"

/-- Fixed path of the local metrics file (line 130). -/
def metricsPath : String := "reports/metrics.json"

/-- Fixed path of the run-metadata file (line 146). -/
def infoPath : String := "reports/experiment_info.json"

/-- Outcomes of the external operations `main` performs, fixed by the
test environment: what loading the model file yields, what loading the
dataset yields, whether the two local report files are writable, and
whether the tracking service accepts calls (a single flag — when it is
`false` the first tracking call of step 6 raises `trackingError`). -/
structure Env where
  run_id : String
  modelFile : Except PyError Classifier
  dataFile : Except PyError (List (List ℚ))
  metricsWritable : Bool
  infoWritable : Bool
  trackingOk : Bool

/-- Embeds `load_model` (lines 54–65): open + `pickle.load`, logging success,
`FileNotFoundError` (nothing was read) or any other failure (the file
was opened and read, deserialization failed), then re-raising. -/
def load_model (res : Except PyError Classifier) (path : String) :
    List Event × Except PyError Classifier :=
  match res with
  | .ok clf => ([.fileRead path, .logInfo ("Model loaded from " ++ path)], .ok clf)
  | .error (.fileNotFound p) =>
      ([.logError ("File not found: " ++ path)], .error (.fileNotFound p))
  | .error e =>
      ([.fileRead path, .logError ("Unexpected error while loading the model: " ++ e.msg)],
       .error e)

/-- Embeds `load_data` (lines 67–77): `pd.read_csv`, logging success, a parse
failure (the file was read but is malformed) or any other failure, then
re-raising. -/
def load_data (res : Except PyError (List (List ℚ))) (path : String) :
    List Event × Except PyError (List (List ℚ)) :=
  match res with
  | .ok df => ([.fileRead path, .logInfo ("Data loaded from " ++ path)], .ok df)
  | .error .parseError =>
      ([.fileRead path, .logError "Failed to parse CSV"], .error .parseError)
  | .error (.fileNotFound p) =>
      ([.logError ("Unexpected error while loading data: " ++ (PyError.fileNotFound p).msg)],
       .error (.fileNotFound p))
  | .error e =>
      ([.fileRead path, .logError ("Unexpected error while loading data: " ++ e.msg)],
       .error e)

/-- Embeds `test_data.iloc[:, :-1].values` (line 125): every column but the
last of each row. -/
def feature_matrix (test_data : List (List ℚ)) : List (List ℚ) :=
  test_data.map List.dropLast

/-- Embeds `test_data.iloc[:, -1].values` (line 126): the last column. -/
def label_vector (test_data : List (List ℚ)) : List ℚ :=
  test_data.map fun r => r.getLastD 0

/-- Embeds `save_metrics` (lines 96–103): open for writing and `json.dump`,
or log and re-raise the I/O failure (an unwritable destination fails at
`open`, before anything is written). -/
def save_metrics (metrics : MetricsDict) (path : String) (writable : Bool) :
    List Event × Except PyError Unit :=
  if writable then
    ([.fileWrite path (metrics_to_json metrics), .logInfo ("Metrics saved to " ++ path)],
     .ok ())
  else
    ([.logError ("Error saving metrics: " ++ (PyError.ioError path).msg)],
     .error (.ioError path))

/-- Embeds `save_model_info` (lines 105–112): write the run-metadata JSON, or
log and re-raise the I/O failure. -/
def save_model_info (run_id model_path path : String) (writable : Bool) :
    List Event × Except PyError Unit :=
  if writable then
    ([.fileWrite path (model_info_json run_id model_path),
      .logInfo ("Model info saved to " ++ path)], .ok ())
  else
    ([.logError ("Error saving model info: " ++ (PyError.ioError path).msg)],
     .error (.ioError path))

/-- The `mlflow.log_metric` loop over the metrics dict (lines 133–134),
in dict insertion order. -/
def logMetricsEvents (m : MetricsDict) : List Event :=
  [.logMetric "accuracy" m.accuracy, .logMetric "precision" m.precision,
   .logMetric "recall" m.«recall», .logMetric "auc" m.auc]

/-- The `hasattr(clf, 'get_params')`-guarded `mlflow.log_param` loop
(lines 137–140): nothing is logged when the attribute is absent. -/
def logParamsEvents (clf : Classifier) : List Event :=
  match clf.get_params with
  | some ps => ps.map fun pr => Event.logParam pr.1 pr.2
  | none => []

/-- The body of the `try` block in `main` (lines 120–151), as the
events it emits and either `ok` or the exception that aborted it.
Later steps are reached only when every earlier step succeeded. -/
def tryBody (env : Env) : List Event × Except PyError Unit :=
  match load_model env.modelFile modelPath with
  | (ev1, .error e) => (ev1, .error e)
  | (ev1, .ok clf) =>
    match load_data env.dataFile dataPath with
    | (ev2, .error e) => (ev1 ++ ev2, .error e)
    | (ev2, .ok test_data) =>
      match evaluate_model clf (feature_matrix test_data) (label_vector test_data) with
      | .error e =>
          (ev1 ++ ev2 ++ [.evaluateCall, .logError ("Error during model evaluation: " ++ e.msg)],
           .error e)
      | .ok metrics =>
        let ev3 : List Event := [.evaluateCall, .logInfo "Evaluation metrics calculated"]
        match save_metrics metrics metricsPath env.metricsWritable with
        | (ev4, .error e) => (ev1 ++ ev2 ++ ev3 ++ ev4, .error e)
        | (ev4, .ok _) =>
          if env.trackingOk then
            let evm := logMetricsEvents metrics
            let evp := logParamsEvents clf
            let evmod : List Event := [.logModelArtifact "model"]
            match save_model_info env.run_id "model" infoPath env.infoWritable with
            | (ev5, .error e) =>
                (ev1 ++ ev2 ++ ev3 ++ ev4 ++ evm ++ evp ++ evmod ++ ev5, .error e)
            | (ev5, .ok _) =>
                (ev1 ++ ev2 ++ ev3 ++ ev4 ++ evm ++ evp ++ evmod ++ ev5 ++
                   [.logArtifactFile metricsPath,
                    .logInfo "Model evaluation completed and logged to MLflow."],
                 .ok ())
          else
            (ev1 ++ ev2 ++ ev3 ++ ev4, .error .trackingError)

/-- How `main` returned. -/
inductive MainOutcome where
  | normal
  | raised (e : PyError)
deriving DecidableEq, Repr

/-- Embeds `main` (lines 116–155): set the experiment, open a tracking run,
run the `try` body; on any exception the `except` arm logs it and
prints it and `main` falls through, returning normally; the `with`
block closes the run on both paths. -/
def main_run (env : Env) : List Event × MainOutcome :=
  let opening : List Event := [.setExperiment "my-dvc-pipeline", .startRun env.run_id]
  match tryBody env with
  | (evs, .ok _) => (opening ++ evs ++ [.endRun], .normal)
  | (evs, .error e) =>
      (opening ++ evs ++
        [.logError ("Failed to complete model evaluation: " ++ e.msg),
         .consolePrint ("Error: " ++ e.msg), .endRun],
       .normal)

/-- The module-level startup code (lines 17–32), run on import before
`main`: read `DAGSHUB_TOKEN` from the environment; `if not
DAGSHUB_TOKEN` — i.e. the variable is absent or holds a falsy (empty)
string — raise `ValueError` before anything else; otherwise
authenticate with DagsHub, initialise the repo integration, and point
MLflow at the tracking server. -/
def moduleStartup (token : Option String) : List Event × Option PyError :=
  match token with
  | none => ([], some (.valueError "DAGSHUB_TOKEN environment variable is not set."))
  | some s =>
    if s = "" then
      ([], some (.valueError "DAGSHUB_TOKEN environment variable is not set."))
    else
      ([.netCall "dagshub.auth.add_app_token", .netCall "dagshub.init",
        .setTrackingUri "https://dagshub.com/sandeepdash-mlops/Capstone-Project.mlflow"],
       none)

/-- How the whole process ended. -/
inductive ProcessOutcome where
  /-- startup raised before `main` ever ran. -/
  | raisedAtStartup (e : PyError)
  /-- Function `main` ran and returned with the given outcome. -/
  | ranMain (o : MainOutcome)
deriving DecidableEq, Repr

/-- One full invocation of the script (`python model_evaluation.py`):
module-level startup, then `main()`.  `token` is
`os.environ.get("DAGSHUB_TOKEN")`. -/
def process (token : Option String) (env : Env) : List Event × ProcessOutcome :=
  match moduleStartup token with
  | (evs, some e) => (evs, .raisedAtStartup e)
  | (evs, none) =>
      let (tr, o) := main_run env
      (evs ++ tr, .ranMain o)

/-!
## Concrete scenario

The end-to-end scenario of the spec: four test rows whose true labels
are `[1,0,0,1]`, a classifier predicting `[1,0,1,1]` with
positive-class probabilities `[0.9,0.2,0.4,0.8]`.
-/

/-- The test table: one feature column and the trailing label column. -/
def scenario_df : List (List ℚ) := [[10, 1], [20, 0], [30, 0], [40, 1]]

/-- A classifier producing exactly the scenario's predictions and
positive-class probabilities on the scenario rows. -/
def scenario_clf : Classifier where
  predict := fun r =>
    if r = [10] then 1 else if r = [20] then 0 else if r = [30] then 1 else 1
  predict_proba := fun r =>
    if r = [10] then (1/10, 9/10) else if r = [20] then (4/5, 1/5)
    else if r = [30] then (3/5, 2/5) else (1/5, 4/5)
  get_params := some [("C", "1.0")]

/-- An environment in which every external operation succeeds. -/
def scenario_env (rid : String) : Env where
  run_id := rid
  modelFile := .ok scenario_clf
  dataFile := .ok scenario_df
  metricsWritable := true
  infoWritable := true
  trackingOk := true

/-- The trace of a fully successful invocation of `main`. -/
def successTrace (rid : String) (m : MetricsDict) (clf : Classifier) : List Event :=
  [.setExperiment "my-dvc-pipeline", .startRun rid,
   .fileRead modelPath, .logInfo ("Model loaded from " ++ modelPath),
   .fileRead dataPath, .logInfo ("Data loaded from " ++ dataPath),
   .evaluateCall, .logInfo "Evaluation metrics calculated",
   .fileWrite metricsPath (metrics_to_json m), .logInfo ("Metrics saved to " ++ metricsPath)]
  ++ logMetricsEvents m ++ logParamsEvents clf ++
  [.logModelArtifact "model",
   .fileWrite infoPath (model_info_json rid "model"),
   .logInfo ("Model info saved to " ++ infoPath),
   .logArtifactFile metricsPath,
   .logInfo "Model evaluation completed and logged to MLflow.",
   .endRun]

theorem main_run_success (env : Env) (clf : Classifier) (df : List (List ℚ))
    (m : MetricsDict)
    (hm : env.modelFile = .ok clf) (hd : env.dataFile = .ok df)
    (he : evaluate_model clf (feature_matrix df) (label_vector df) = .ok m)
    (hmw : env.metricsWritable = true) (hiw : env.infoWritable = true)
    (htk : env.trackingOk = true) :
    main_run env = (successTrace env.run_id m clf, .normal) := by
  simp [main_run, tryBody, load_model, load_data, save_metrics, save_model_info,
    hm, hd, he, hmw, hiw, htk, successTrace]

/-- Evaluating the scenario classifier on the scenario data: accuracy
3/4 (three of four predictions match), precision 2/3 (two true
positives of three predicted positives), recall 1 (both actual
positives found), and AUC 1 (every positive-class probability exceeds
every negative one). -/
theorem scenario_eval :
    evaluate_model scenario_clf (feature_matrix scenario_df) (label_vector scenario_df) =
      .ok ⟨3/4, 2/3, 1, 1⟩ := by
  norm_num [evaluate_model, accuracy_score, precision_score, recall_score, roc_auc_score,
    binaryLabels, feature_matrix, label_vector, scenario_clf, scenario_df,
    List.countP, List.countP.go]

/-!
## Trace observations
-/

/-- Whether an event writes the local metrics file. -/
def Event.isMetricsFileWrite : Event → Bool
  | .fileWrite p _ => p == "reports/metrics.json"
  | _ => false

/-- Whether an event writes the local run-metadata file. -/
def Event.isInfoFileWrite : Event → Bool
  | .fileWrite p _ => p == "reports/experiment_info.json"
  | _ => false

/-- Whether an event opens a tracking run. -/
def Event.isStartRun : Event → Bool
  | .startRun _ => true
  | _ => false

/-- Whether an event uploads the local metrics file to the run. -/
def Event.isMetricsArtifactUpload : Event → Bool
  | .logArtifactFile p => p == "reports/metrics.json"
  | _ => false

/-- Number of Metrics Records written in a trace. -/
def metricsRecordWrites (tr : List Event) : ℕ := tr.countP Event.isMetricsFileWrite

/-- Number of Run Metadata records written in a trace. -/
def runMetadataWrites (tr : List Event) : ℕ := tr.countP Event.isInfoFileWrite

/-- Number of tracking runs opened in a trace. -/
def trackingRunsOpened (tr : List Event) : ℕ := tr.countP Event.isStartRun

/-!
## Claims
-/

/-- Claim C1: with predictions `[1,0,1,1]`, true labels `[1,0,0,1]` and
positive-class probabilities `[0.9,0.2,0.4,0.8]`, `evaluate_model`
returns exactly accuracy 3/4, precision 2/3, recall 1 and the AUC of
those four (probability, label) pairs — which is 1 — and after a fully
successful run the persisted run metadata is
`{run_id: <the tracking run's id>, model_path: "model"}` with a
non-empty run id, and `main` returns normally. -/
theorem C1_end_to_end_scenario (rid : String) (hrid : rid ≠ "") :
    evaluate_model scenario_clf (feature_matrix scenario_df) (label_vector scenario_df) =
      .ok ⟨3/4, 2/3, 1, 1⟩ ∧
    roc_auc_score (label_vector scenario_df) [9/10, 1/5, 2/5, 4/5] = .ok 1 ∧
    Event.fileWrite infoPath (model_info_json rid "model") ∈ (main_run (scenario_env rid)).1 ∧
    rid ≠ "" ∧
    (main_run (scenario_env rid)).2 = .normal := by
  have h := main_run_success (scenario_env rid) scenario_clf scenario_df ⟨3/4, 2/3, 1, 1⟩
    rfl rfl scenario_eval rfl rfl rfl
  refine ⟨scenario_eval, ?_, ?_, hrid, ?_⟩
  · norm_num [roc_auc_score, label_vector, scenario_df, binaryLabels]
  · have h1 : (main_run (scenario_env rid)).1 =
        successTrace (scenario_env rid).run_id ⟨3/4, 2/3, 1, 1⟩ scenario_clf :=
      congrArg Prod.fst h
    rw [h1]
    simp [successTrace, scenario_env, logMetricsEvents, logParamsEvents, scenario_clf]
  · rw [h]

theorem C1_end_to_end_scenario_witness :
    ("abc123" : String) ≠ "" ∧ (main_run (scenario_env "abc123")).2 = .normal :=
  ⟨by decide, (C1_end_to_end_scenario "abc123" (by decide)).2.2.2.2⟩

/-- Claim C3: when the credential variable is absent from the process
environment, the process aborts at startup with the credential error,
with an empty event trace — so before any file I/O, network call, or
other pipeline work. -/
theorem C3_missing_credential_aborts_first (env : Env) :
    process none env =
      ([], .raisedAtStartup (.valueError "DAGSHUB_TOKEN environment variable is not set.")) :=
  rfl

/-- Claim C6: writing any metrics record with the metrics writer
produces exactly one write of its JSON rendering, and reading that
rendering back yields the identical record. -/
theorem C6_metrics_roundtrip (m : MetricsDict) (path : String) :
    save_metrics m path true =
      ([.fileWrite path (metrics_to_json m), .logInfo ("Metrics saved to " ++ path)], .ok ()) ∧
    read_metrics (metrics_to_json m) = some m :=
  ⟨rfl, rfl⟩

/-- Claim C9: a credential variable present but equal to the empty
string is treated exactly like an absent variable — the whole process
behaves identically, raising the same configuration error at startup. -/
theorem C9_empty_credential_equals_absent (env : Env) :
    process (some "") env = process none env ∧
    (moduleStartup (some "")).2 =
      some (.valueError "DAGSHUB_TOKEN environment variable is not set.") :=
  ⟨rfl, rfl⟩

/-- A binary classifier's predictions, cast to ℚ, are 0 or 1. -/
theorem predict_cast_binary (clf : Classifier) (r : List ℚ) :
    ((clf.predict r).val : ℚ) = 0 ∨ ((clf.predict r).val : ℚ) = 1 := by
  rcases h : clf.predict r with ⟨v, hv⟩
  interval_cases v
  · exact Or.inl (by norm_num)
  · exact Or.inr (by norm_num)

/-- The prediction vector a classifier produces always passes the
binary-target check. -/
theorem binaryLabels_pred (clf : Classifier) (X : List (List ℚ)) :
    binaryLabels (X.map fun r => ((clf.predict r).val : ℚ)) = true := by
  simp only [binaryLabels, List.all_eq_true, List.mem_map]
  rintro b ⟨r, hr, rfl⟩
  simpa using predict_cast_binary clf r

/-- Zipped pairs whose first components all avoid `c` survive no
`p.1 = c` filter. -/
theorem filter_zip_fst_nil (y s : List ℚ) (c : ℚ) (h : ∀ l ∈ y, ¬ l = c) :
    (y.zip s).filter (fun p => decide (p.1 = c)) = [] := by
  rw [List.filter_eq_nil_iff]
  rintro ⟨a, b⟩ hab
  simpa using h a (List.of_mem_zip hab).1

/-- Claim C2: for every model and every feature matrix/label pair with
matching row counts whose (non-empty) label vector contains only one
class, `evaluate_model` fails with the underlying AUC error — the
single-class `ValueError` from `roc_auc_score` — and returns no partial
metrics record (the return is the propagated error, not a dict). -/
theorem C2_single_class_evaluation_fails (clf : Classifier) (X : List (List ℚ)) (y : List ℚ)
    (hlen : X.length = y.length) (hne : y ≠ [])
    (hsingle : (∀ l ∈ y, l = 0) ∨ (∀ l ∈ y, l = 1)) :
    evaluate_model clf X y = .error .aucUndefined := by
  have hplen : (X.map fun r => ((clf.predict r).val : ℚ)).length = y.length := by
    simp [hlen]
  have hqlen : (X.map fun r => (clf.predict_proba r).2).length = y.length := by
    simp [hlen]
  have hy0 : ¬ y.length = 0 := fun h => hne (List.length_eq_zero.mp h)
  have hyb : binaryLabels y = true := by
    simp only [binaryLabels, List.all_eq_true]
    intro l hl
    rcases hsingle with h | h
    · simp [h l hl]
    · simp [h l hl]
  have hpb := binaryLabels_pred clf X
  have hroc : roc_auc_score y (X.map fun r => (clf.predict_proba r).2) =
      .error .aucUndefined := by
    rcases hsingle with h | h
    · have hnil : ((y.zip (X.map fun r => (clf.predict_proba r).2)).filter
          (fun p => decide (p.1 = 1))) = [] := by
        refine filter_zip_fst_nil _ _ _ ?_
        intro l hl
        simp [h l hl]
      simp [roc_auc_score, hqlen, hyb, hnil]
    · have hnil : ((y.zip (X.map fun r => (clf.predict_proba r).2)).filter
          (fun p => decide (p.1 = 0))) = [] := by
        refine filter_zip_fst_nil _ _ _ ?_
        intro l hl
        simp [h l hl]
      simp [roc_auc_score, hqlen, hyb, hnil]
  simp [evaluate_model, accuracy_score, precision_score, recall_score,
    hplen, hqlen, hy0, hyb, hpb, hroc]

theorem C2_single_class_evaluation_fails_witness :
    ([[(10 : ℚ)]].length = [(1 : ℚ)].length) ∧ ([(1 : ℚ)] ≠ []) ∧
    evaluate_model scenario_clf [[10]] [1] = .error .aucUndefined :=
  ⟨rfl, by decide,
    C2_single_class_evaluation_fails scenario_clf [[10]] [1] rfl (by decide)
      (Or.inr (by intro l hl; simpa using hl))⟩

/-- The `try` body when the model file is missing: only the
file-not-found log entry is emitted and the exception propagates. -/
theorem tryBody_model_missing (env : Env) (p : String)
    (h : env.modelFile = .error (.fileNotFound p)) :
    tryBody env =
      ([.logError ("File not found: " ++ modelPath)], .error (.fileNotFound p)) := by
  simp [tryBody, load_model, h]

/-- Claim C4: when the model artifact path does not exist the loader
fails with the file-not-found error, and the whole invocation of `main`
performs no dataset read, no evaluation, no metric / parameter / model
/ artifact tracking call, and no file write afterwards — the pipeline
short-circuits on this first failure. -/
theorem C4_missing_model_short_circuit (env : Env) (p : String)
    (h : env.modelFile = .error (.fileNotFound p)) :
    (tryBody env).2 = .error (.fileNotFound p) ∧
    Event.fileRead dataPath ∉ (main_run env).1 ∧
    Event.evaluateCall ∉ (main_run env).1 ∧
    (∀ n v, Event.logMetric n v ∉ (main_run env).1) ∧
    (∀ n v, Event.logParam n v ∉ (main_run env).1) ∧
    (∀ s, Event.logModelArtifact s ∉ (main_run env).1) ∧
    (∀ s, Event.logArtifactFile s ∉ (main_run env).1) ∧
    (∀ q c, Event.fileWrite q c ∉ (main_run env).1) := by
  have ht := tryBody_model_missing env p h
  constructor
  · rw [ht]
  · simp [main_run, ht, dataPath, modelPath]

/-- An environment whose model artifact is missing but whose other
operations would all succeed. -/
def missing_model_env : Env where
  run_id := "r1"
  modelFile := .error (.fileNotFound "./models/model.pkl")
  dataFile := .ok scenario_df
  metricsWritable := true
  infoWritable := true
  trackingOk := true

theorem C4_missing_model_short_circuit_witness :
    missing_model_env.modelFile = .error (.fileNotFound "./models/model.pkl") ∧
    (tryBody missing_model_env).2 = .error (.fileNotFound "./models/model.pkl") :=
  ⟨rfl, (C4_missing_model_short_circuit missing_model_env "./models/model.pkl" rfl).1⟩

/-- Events produced by the parameter-logging loop never satisfy a
predicate that is false on every `logParam` event. -/
theorem countP_logParam_map (ps : List (String × String)) (q : Event → Bool)
    (hq : ∀ n v, q (.logParam n v) = false) :
    (ps.map fun pr => Event.logParam pr.1 pr.2).countP q = 0 := by
  induction ps with
  | nil => rfl
  | cons a l ih => simp [List.countP_cons, ih, hq]

/-- Composition form of the preceding fact, as `simp` rewrites
`countP` over `map` into `countP` of a composition. -/
theorem countP_comp_logParam (ps : List (String × String)) (q : Event → Bool)
    (hq : ∀ n v, q (.logParam n v) = false) :
    ps.countP (q ∘ fun pr => Event.logParam pr.1 pr.2) = 0 := by
  induction ps with
  | nil => rfl
  | cons a l ih => simp [List.countP_cons, ih, hq]

/-- Structural facts about the `try` body's trace, for every
environment: the metrics file and the metadata file are each written at
most once, no tracking run is opened inside the body (the run is opened
by the `with` statement in `main`), no file is ever deleted, and a
successful body writes each report exactly once. -/
theorem tryBody_trace_facts (env : Env) :
    metricsRecordWrites (tryBody env).1 ≤ 1 ∧
    runMetadataWrites (tryBody env).1 ≤ 1 ∧
    trackingRunsOpened (tryBody env).1 = 0 ∧
    (∀ p, Event.fileDelete p ∉ (tryBody env).1) ∧
    ((tryBody env).2 = .ok () → metricsRecordWrites (tryBody env).1 = 1 ∧
      runMetadataWrites (tryBody env).1 = 1) := by
  obtain ⟨rid, mf, df, mw, iw, tk⟩ := env
  cases mf with
  | error e =>
    cases e <;>
      simp [tryBody, load_model, metricsRecordWrites, runMetadataWrites, trackingRunsOpened,
        Event.isMetricsFileWrite, Event.isInfoFileWrite, Event.isStartRun]
  | ok clf =>
    cases df with
    | error e =>
      cases e <;>
        simp [tryBody, load_model, load_data, metricsRecordWrites, runMetadataWrites,
          trackingRunsOpened, Event.isMetricsFileWrite, Event.isInfoFileWrite, Event.isStartRun]
    | ok td =>
      cases hE : evaluate_model clf (feature_matrix td) (label_vector td) with
      | error e =>
        simp [tryBody, load_model, load_data, hE, metricsRecordWrites, runMetadataWrites,
          trackingRunsOpened, Event.isMetricsFileWrite, Event.isInfoFileWrite, Event.isStartRun]
      | ok m =>
        cases mw with
        | false =>
          simp [tryBody, load_model, load_data, hE, save_metrics, metricsRecordWrites,
            runMetadataWrites, trackingRunsOpened, Event.isMetricsFileWrite,
            Event.isInfoFileWrite, Event.isStartRun]
        | true =>
          cases tk with
          | false =>
            simp [tryBody, load_model, load_data, hE, save_metrics, metricsRecordWrites,
              runMetadataWrites, trackingRunsOpened, Event.isMetricsFileWrite,
              Event.isInfoFileWrite, Event.isStartRun, metricsPath, infoPath]
          | true =>
            cases iw with
            | false =>
              cases hg : clf.get_params <;>
                simp [tryBody, load_model, load_data, hE, save_metrics, save_model_info,
                  logMetricsEvents, logParamsEvents, hg, metricsRecordWrites,
                  runMetadataWrites, trackingRunsOpened, Event.isMetricsFileWrite,
                  Event.isInfoFileWrite, Event.isStartRun, metricsPath, infoPath,
                  List.countP_append, List.countP_cons, countP_logParam_map,
                  countP_comp_logParam]
            | true =>
              cases hg : clf.get_params <;>
                simp [tryBody, load_model, load_data, hE, save_metrics, save_model_info,
                  logMetricsEvents, logParamsEvents, hg, metricsRecordWrites,
                  runMetadataWrites, trackingRunsOpened, Event.isMetricsFileWrite,
                  Event.isInfoFileWrite, Event.isStartRun, metricsPath, infoPath,
                  List.countP_append, List.countP_cons, countP_logParam_map,
                  countP_comp_logParam]

/-- Behaviour of `main` when the `try` body fails: the `except` arm appends the
pipeline-level log entry, the console print, and the run-closing event,
and `main` returns normally. -/
theorem main_run_failure (env : Env) (evs : List Event) (e : PyError)
    (h : tryBody env = (evs, .error e)) :
    main_run env =
      ([.setExperiment "my-dvc-pipeline", .startRun env.run_id] ++ evs ++
        [.logError ("Failed to complete model evaluation: " ++ e.msg),
         .consolePrint ("Error: " ++ e.msg), .endRun], .normal) := by
  simp [main_run, h]

/-- Claim C5: any failure raised in the `try` body (steps 1–7) is
logged with pipeline-level context and printed to the invoking caller's
console, the tracking-run scope still closes (the trace ends with the
run-closing event), `main` returns normally without re-raising, and
every event that happened before the failure — including any file
writes — remains in the final trace while nothing is ever deleted (no
rollback). -/
theorem C5_failure_logged_run_closed_no_reraise (env : Env) (e : PyError)
    (h : (tryBody env).2 = .error e) :
    (main_run env).2 = .normal ∧
    Event.logError ("Failed to complete model evaluation: " ++ e.msg) ∈ (main_run env).1 ∧
    Event.consolePrint ("Error: " ++ e.msg) ∈ (main_run env).1 ∧
    (main_run env).1.getLast? = some .endRun ∧
    (∀ ev ∈ (tryBody env).1, ev ∈ (main_run env).1) ∧
    (∀ p, Event.fileDelete p ∉ (main_run env).1) := by
  have hdel := (tryBody_trace_facts env).2.2.2.1
  rcases htb : tryBody env with ⟨evs, r⟩
  rw [htb] at h hdel
  simp only at h hdel
  subst h
  have hm := main_run_failure env evs e htb
  rw [hm]
  refine ⟨rfl, ?_, ?_, ?_, ?_, ?_⟩
  · simp
  · simp
  · exact (List.getLast?_append_of_ne_nil _ (by simp)).trans rfl
  · intro ev hev
    simp only at hev
    simp [hev]
  · intro p
    simp [hdel p]

theorem C5_failure_logged_run_closed_no_reraise_witness :
    (tryBody missing_model_env).2 = .error (.fileNotFound "./models/model.pkl") ∧
    (main_run missing_model_env).2 = .normal :=
  ⟨rfl, (C5_failure_logged_run_closed_no_reraise missing_model_env
      (.fileNotFound "./models/model.pkl") rfl).1⟩

/-- Counting events across `main`'s trace: the `with` block contributes
the single run-opening event, and neither the opening events nor the
`except`/closing suffix writes any report file. -/
theorem counts_main_run (env : Env) :
    trackingRunsOpened (main_run env).1 = 1 + trackingRunsOpened (tryBody env).1 ∧
    metricsRecordWrites (main_run env).1 = metricsRecordWrites (tryBody env).1 ∧
    runMetadataWrites (main_run env).1 = runMetadataWrites (tryBody env).1 := by
  rcases htb : tryBody env with ⟨evs, r⟩
  cases r <;>
    simp [main_run, htb, metricsRecordWrites, runMetadataWrites, trackingRunsOpened,
      List.countP_append, List.countP_cons, Event.isMetricsFileWrite, Event.isInfoFileWrite,
      Event.isStartRun] <;>
    omega

/-- A fully successful environment makes the `try` body succeed. -/
theorem scenario_tryBody_ok (rid : String) : (tryBody (scenario_env rid)).2 = .ok () := by
  simp [tryBody, scenario_env, load_model, load_data, scenario_eval, save_metrics,
    save_model_info]

/-- Claim C7 (amended): every invocation of `main` opens exactly one
tracking run, and writes the metrics file at most once and the
run-metadata file at most once; when the pipeline body succeeds, each
is written exactly once (the original "exactly one per invocation"
fails for failing invocations, which write no reports at all). -/
theorem C7_amended_one_run_at_most_one_record_each (env : Env) :
    trackingRunsOpened (main_run env).1 = 1 ∧
    metricsRecordWrites (main_run env).1 ≤ 1 ∧
    runMetadataWrites (main_run env).1 ≤ 1 ∧
    ((tryBody env).2 = .ok () → metricsRecordWrites (main_run env).1 = 1 ∧
      runMetadataWrites (main_run env).1 = 1) := by
  obtain ⟨hrun, hmet, hinfo⟩ := counts_main_run env
  obtain ⟨h1, h2, h3, _, h5⟩ := tryBody_trace_facts env
  refine ⟨?_, ?_, ?_, fun hok => ?_⟩
  · rw [hrun, h3]
  · rw [hmet]
    exact h1
  · rw [hinfo]
    exact h2
  · obtain ⟨ha, hb⟩ := h5 hok
    rw [hmet, hinfo]
    exact ⟨ha, hb⟩

theorem C7_amended_one_run_at_most_one_record_each_witness :
    (tryBody (scenario_env "r1")).2 = .ok () ∧
    (metricsRecordWrites (main_run (scenario_env "r1")).1 = 1 ∧
     runMetadataWrites (main_run (scenario_env "r1")).1 = 1) :=
  ⟨scenario_tryBody_ok "r1",
    (C7_amended_one_run_at_most_one_record_each (scenario_env "r1")).2.2.2
      (scenario_tryBody_ok "r1")⟩

/-- Claim C7 is false as stated: an invocation whose model file is
missing produces no metrics record and no run-metadata record at all,
rather than exactly one of each. -/
theorem C7_counterexample_missing_model :
    ¬ (metricsRecordWrites (main_run missing_model_env).1 = 1 ∧
       runMetadataWrites (main_run missing_model_env).1 = 1) := by
  have ht := tryBody_model_missing missing_model_env "./models/model.pkl" rfl
  simp [main_run, ht, metricsRecordWrites, runMetadataWrites, List.countP_cons,
    Event.isMetricsFileWrite, Event.isInfoFileWrite]

/-- Claim C8 is false as stated: on a concrete fully successful run the
trace contains exactly one run-metadata write and exactly one upload of
the local metrics file, and the metadata write comes strictly first —
the metrics file is uploaded to the tracking run only after the Run
Metadata file is written (the source calls `mlflow.log_artifact` after
`save_model_info`), not before. -/
theorem C8_counterexample_upload_after_metadata :
    (main_run (scenario_env "r1")).1.countP Event.isInfoFileWrite = 1 ∧
    (main_run (scenario_env "r1")).1.countP Event.isMetricsArtifactUpload = 1 ∧
    (main_run (scenario_env "r1")).1.findIdx Event.isInfoFileWrite <
      (main_run (scenario_env "r1")).1.findIdx Event.isMetricsArtifactUpload := by
  have h := main_run_success (scenario_env "r1") scenario_clf scenario_df ⟨3/4, 2/3, 1, 1⟩
    rfl rfl scenario_eval rfl rfl rfl
  rw [congrArg Prod.fst h]
  refine ⟨?_, ?_, ?_⟩ <;>
    simp [successTrace, logMetricsEvents, logParamsEvents, scenario_clf, scenario_env,
      metricsPath, infoPath, List.countP_cons, List.findIdx_cons, Event.isInfoFileWrite,
      Event.isMetricsArtifactUpload]

/-- Claim C8 (amended): in every successful run the metric scalars, the
hyperparameters (when present), and the model artifact are all logged
to the tracking run before the Run Metadata file is written, and the
local metrics file is uploaded to the run only after the Run Metadata
file is written. -/
theorem C8_amended_metadata_written_before_metrics_upload (env : Env) (clf : Classifier)
    (df : List (List ℚ)) (m : MetricsDict)
    (hm : env.modelFile = .ok clf) (hd : env.dataFile = .ok df)
    (he : evaluate_model clf (feature_matrix df) (label_vector df) = .ok m)
    (hmw : env.metricsWritable = true) (hiw : env.infoWritable = true)
    (htk : env.trackingOk = true) :
    ∃ a b, (main_run env).1 =
        a ++ Event.fileWrite infoPath (model_info_json env.run_id "model") :: b ∧
      Event.logMetric "accuracy" m.accuracy ∈ a ∧
      (∀ n v, Event.logMetric n v ∉ b) ∧
      (∀ n v, Event.logParam n v ∉ b) ∧
      Event.logModelArtifact "model" ∈ a ∧
      Event.logArtifactFile metricsPath ∉ a ∧
      Event.logArtifactFile metricsPath ∈ b ∧
      (∀ c, Event.fileWrite infoPath c ∉ a) := by
  have h := main_run_success env clf df m hm hd he hmw hiw htk
  rw [congrArg Prod.fst h]
  refine ⟨[Event.setExperiment "my-dvc-pipeline", .startRun env.run_id,
      .fileRead modelPath, .logInfo ("Model loaded from " ++ modelPath),
      .fileRead dataPath, .logInfo ("Data loaded from " ++ dataPath),
      .evaluateCall, .logInfo "Evaluation metrics calculated",
      .fileWrite metricsPath (metrics_to_json m),
      .logInfo ("Metrics saved to " ++ metricsPath)]
      ++ logMetricsEvents m ++ logParamsEvents clf ++ [.logModelArtifact "model"],
    [Event.logInfo ("Model info saved to " ++ infoPath),
     .logArtifactFile metricsPath,
     .logInfo "Model evaluation completed and logged to MLflow.", .endRun],
    ?_, ?_, ?_, ?_, ?_, ?_, ?_, ?_⟩
  · simp [successTrace]
  · simp [logMetricsEvents]
  · intro n v
    simp
  · intro n v
    simp
  · simp
  · cases hg : clf.get_params <;>
      simp [logMetricsEvents, logParamsEvents, hg, metricsPath]
  · simp
  · intro c
    cases hg : clf.get_params <;>
      simp [logMetricsEvents, logParamsEvents, hg, metricsPath, infoPath]

theorem C8_amended_metadata_written_before_metrics_upload_witness :
    evaluate_model scenario_clf (feature_matrix scenario_df) (label_vector scenario_df) =
      .ok ⟨3/4, 2/3, 1, 1⟩ ∧
    ∃ a b, (main_run (scenario_env "r1")).1 =
        a ++ Event.fileWrite infoPath (model_info_json (scenario_env "r1").run_id "model") :: b ∧
      Event.logMetric "accuracy" (3/4) ∈ a ∧
      (∀ n v, Event.logMetric n v ∉ b) ∧
      (∀ n v, Event.logParam n v ∉ b) ∧
      Event.logModelArtifact "model" ∈ a ∧
      Event.logArtifactFile metricsPath ∉ a ∧
      Event.logArtifactFile metricsPath ∈ b ∧
      (∀ c, Event.fileWrite infoPath c ∉ a) :=
  ⟨scenario_eval,
    C8_amended_metadata_written_before_metrics_upload (scenario_env "r1") scenario_clf
      scenario_df ⟨3/4, 2/3, 1, 1⟩ rfl rfl scenario_eval rfl rfl rfl⟩

/-- Claim C10: when the loaded model has no `get_params` attribute the
run logs no hyperparameters and does not fail: the model artifact is
still uploaded, the run metadata is still persisted, the local metrics
file is still uploaded, and `main` still returns normally. -/
theorem C10_no_get_params_skips_param_logging (env : Env) (clf : Classifier)
    (df : List (List ℚ)) (m : MetricsDict)
    (hg : clf.get_params = none)
    (hm : env.modelFile = .ok clf) (hd : env.dataFile = .ok df)
    (he : evaluate_model clf (feature_matrix df) (label_vector df) = .ok m)
    (hmw : env.metricsWritable = true) (hiw : env.infoWritable = true)
    (htk : env.trackingOk = true) :
    (∀ n v, Event.logParam n v ∉ (main_run env).1) ∧
    Event.logModelArtifact "model" ∈ (main_run env).1 ∧
    Event.fileWrite infoPath (model_info_json env.run_id "model") ∈ (main_run env).1 ∧
    Event.logArtifactFile metricsPath ∈ (main_run env).1 ∧
    (main_run env).2 = .normal := by
  have h := main_run_success env clf df m hm hd he hmw hiw htk
  rw [h]
  refine ⟨?_, ?_, ?_, ?_, rfl⟩
  · intro n v
    simp [successTrace, logMetricsEvents, logParamsEvents, hg]
  · simp [successTrace]
  · simp [successTrace]
  · simp [successTrace]

/-- The scenario classifier stripped of its `get_params` attribute. -/
def scenario_clf_noparams : Classifier where
  predict := scenario_clf.predict
  predict_proba := scenario_clf.predict_proba
  get_params := none

/-- An all-success environment whose model has no `get_params`. -/
def noparams_env : Env where
  run_id := "r2"
  modelFile := .ok scenario_clf_noparams
  dataFile := .ok scenario_df
  metricsWritable := true
  infoWritable := true
  trackingOk := true

/-- The parameter-free scenario classifier evaluates identically to the
scenario classifier (it shares `predict` and `predict_proba`). -/
theorem scenario_eval_noparams :
    evaluate_model scenario_clf_noparams (feature_matrix scenario_df)
      (label_vector scenario_df) = .ok ⟨3/4, 2/3, 1, 1⟩ := by
  norm_num [evaluate_model, accuracy_score, precision_score, recall_score, roc_auc_score,
    binaryLabels, feature_matrix, label_vector, scenario_clf_noparams, scenario_clf,
    scenario_df, List.countP, List.countP.go]

theorem C10_no_get_params_skips_param_logging_witness :
    scenario_clf_noparams.get_params = none ∧
    (main_run noparams_env).2 = .normal :=
  ⟨rfl, (C10_no_get_params_skips_param_logging noparams_env scenario_clf_noparams
      scenario_df ⟨3/4, 2/3, 1, 1⟩ rfl rfl rfl scenario_eval_noparams rfl rfl rfl).2.2.2.2⟩
